import Mathlib

/-!
Verification of the investor-analyze report-synthesis pipeline.

The development shallowly embeds the pipeline of `investor_analyze_tw.py`:
intake normalization, age computation, randomized metric generation,
chart rendering, templated narrative assembly, advice-tip generation with
fallback, report assembly into the email (full) and response (display)
HTML variants, and best-effort email dispatch.

External collaborators are modelled as explicit inputs:
* the outcomes of `dateutil.parser.parse` form `ParseOutcome`: a parsed
  date, a failure raising one of the two exception types `compute_age`
  catches (`ValueError`/`TypeError`), or the documented `OverflowError`
  (parsed date exceeding the largest C integer) which the `except`
  clause does not catch; `compute_age` accordingly returns an `Except`,
  propagating the overflow. A request whose date string overflows aborts
  at the age-computation step with the generic 500 of the top-level
  handler, before any fragment is assembled; the per-request environment
  `Env` of the assembly pipeline therefore carries the caught view
  `String → Option PDate`, embedded into `ParseOutcome` by
  `ParseOutcome.ofCaught`;
* `random.randint`/`random.choice` consume draws from an injected stream
  `Nat → Nat` (`randint lo hi d` maps a draw into `[lo, hi]`, and the
  opening-sentence choice over 3 templates uses draw index 9 modulo 3);
* the OpenAI chat-completion call is an injected `String → ApiResult`
  together with a `clientOk` flag (client configured or not);
* the SMTP session is an injected `SmtpOutcome` together with the
  configured password; exceptions of the session are modelled by
  `Except` in `send_email_attempt` and caught in `send_email`.
-/

/-- A calendar date as used by `compute_age` (year of a `datetime`, with
month and day for the tuple comparison). -/
structure PDate where
  year : Int
  month : Nat
  day : Nat

/-- Outcome of one `dateutil.parser.parse` call: a parsed date, a failure
raising `ValueError` or `TypeError` (the two types `compute_age`
catches), or the documented `OverflowError` raised when the parsed date
exceeds the largest C integer — an exception type the `except` clause of
`compute_age` does not list. -/
inductive ParseOutcome where
  | parsed (d : PDate)
  | failed (msg : String)
  | overflowed (msg : String)

/-- One metric category dict: `{"title": ..., "labels": [...], "values": [...]}`. -/
structure Metric where
  title : String
  labels : List String
  values : List Nat

/-- Outcome of the external chat-completion call: returned content, or a
raised provider/network exception. -/
inductive ApiResult where
  | ok (content : String)
  | error (msg : String)

/-- Outcome of the SMTP session attempted inside the `try` block of `send_email`. -/
inductive SmtpOutcome where
  | delivered
  | connectFailed (msg : String)
  | authFailed (msg : String)
  | sendFailed (msg : String)

/-- What `send_email` leaves behind: it only ever logs, it never raises. -/
inductive EmailLog where
  | skippedNoPassword
  | sent
  | failed (msg : String)

/-- The parsed JSON body of the request: every field is optional and
defaulted to the sentinel "N/A" at extraction time. -/
structure Intake where
  fullName : Option String
  chineseName : Option String
  dob : Option String
  contactNumber : Option String
  company : Option String
  role : Option String
  country : Option String
  experience : Option String
  industry : Option String
  challenge : Option String
  context : Option String
  targetProfile : Option String
  advisor : Option String
  email : Option String

/-- The environment of a request that reaches response assembly: current
date, the date parser in its caught view (`ParseOutcome.ofCaught`; a
request with an overflowing date string aborts with a 500 before
assembly and has no such environment), the random stream, and the two
external collaborators with their configuration. -/
structure Env where
  today : PDate
  parse : String → Option PDate
  r : Nat → Nat
  clientOk : Bool
  api : String → ApiResult
  smtpPassword : Option String
  smtp : SmtpOutcome

/-- The HTTP-level observable of the route: status code and the single
key/value pair of the JSON body. -/
structure HttpResponse where
  status : Nat
  key : String
  value : String

/-- Python tuple comparison `(a1, a2) < (b1, b2)`: lexicographic strict order. -/
def pyTupleLt : Nat × Nat → Nat × Nat → Prop
  | (a1, a2), (b1, b2) => a1 < b1 ∨ (a1 = b1 ∧ a2 < b2)

instance (p q : Nat × Nat) : Decidable (pyTupleLt p q) :=
  match p, q with
  | (a1, a2), (b1, b2) => inferInstanceAs (Decidable (a1 < b1 ∨ (a1 = b1 ∧ a2 < b2)))

/-- `compute_age`: parse the date-of-birth string; on success return
`today.year - birth.year - int((today.month, today.day) < (birth.month, birth.day))`;
on a parse failure raising `ValueError` or `TypeError` the `except`
clause returns 0. A parse failure raising the documented `OverflowError`
matches neither listed exception type and propagates to the caller,
modelled by the `Except.error` result. -/
def compute_age (parse : String → ParseOutcome) (today : PDate) (dob_str : String) :
    Except String Int :=
  match parse dob_str with
  | ParseOutcome.parsed birth_date =>
      Except.ok (today.year - birth_date.year -
        (if pyTupleLt (today.month, today.day) (birth_date.month, birth_date.day) then 1 else 0))
  | ParseOutcome.failed _ => Except.ok 0
  | ParseOutcome.overflowed m => Except.error m

/-- Embeds the parse outcome visible to a request that reaches response
assembly — a parsed date or a caught failure — into the full outcome
type. A request whose date string triggers the uncaught `OverflowError`
never reaches assembly (the route answers the generic 500 at the
age-computation step), so the assembly-level environment `Env` carries
this caught view; the propagation itself is settled at `compute_age`
level. -/
def ParseOutcome.ofCaught : Option PDate → ParseOutcome
  | some d => ParseOutcome.parsed d
  | none => ParseOutcome.failed "ValueError"

/-- `get_openai_response`: `None` when the client is not configured; on a
provider exception `None`; on success the stripped message content. -/
def get_openai_response (clientOk : Bool) (api : String → ApiResult) (prompt : String) :
    Option String :=
  match clientOk with
  | false => none
  | true =>
    match api prompt with
    | ApiResult.ok content => some content.trim
    | ApiResult.error _ => none

/-- The body of the `try` block of `send_email`: the SMTP session either
delivers or raises. -/
def send_email_attempt (outcome : SmtpOutcome) : Except String Unit :=
  match outcome with
  | SmtpOutcome.delivered => Except.ok ()
  | SmtpOutcome.connectFailed m => Except.error m
  | SmtpOutcome.authFailed m => Except.error m
  | SmtpOutcome.sendFailed m => Except.error m

/-- `send_email`: early return when no SMTP password is configured;
otherwise run the session and catch any exception, logging it. The
function is total: no failure escapes to the caller. -/
def send_email (password : Option String) (outcome : SmtpOutcome)
    (html_body subject : String) : EmailLog :=
  match password with
  | none => EmailLog.skippedNoPassword
  | some _ =>
    match send_email_attempt outcome with
    | Except.ok _ => EmailLog.sent
    | Except.error m => EmailLog.failed m

/-- `random.randint(lo, hi)`: maps one draw of the random stream into the
inclusive range `[lo, hi]`. -/
def randint (lo hi draw : Nat) : Nat :=
  lo + draw % (hi - lo + 1)

/-- `generate_chart_metrics`: three fixed categories, each with three fixed
Traditional-Chinese labels and three freshly drawn values, using draws
0 through 8 of the stream. -/
def generate_chart_metrics (r : Nat → Nat) : List Metric :=
  [{ title := "市場定位", labels := ["品牌認知", "客戶契合", "聲譽穩固"],
     values := [randint 70 90 (r 0), randint 65 85 (r 1), randint 70 90 (r 2)] },
   { title := "投資者吸引力", labels := ["敘事信心", "規模化模型", "信任憑證"],
     values := [randint 70 85 (r 3), randint 60 80 (r 4), randint 75 90 (r 5)] },
   { title := "策略執行力", labels := ["合作準備", "高階通路", "領導形象"],
     values := [randint 65 85 (r 6), randint 65 85 (r 7), randint 75 90 (r 8)] }]

/-- The local 3-color list of `generate_chart_html`. -/
def colors : List String := ["#8C52FF", "#5E9CA0", "#F2A900"]

/-- `generate_chart_html`: for each category, the title line followed by one
bar row per `(label, value)` pair of `zip(labels, values)`, the bar width
being the value as a percentage and the fill color `colors[j % len(colors)]`. -/
def generate_chart_html (metrics : List Metric) : String :=
  String.join (metrics.map (fun metric =>
    "<strong style=\x27font-size:18px;color:#333;\x27>" ++ metric.title ++ "</strong><br>" ++
    String.join (((metric.labels.zip metric.values).enum).map (fun (j, (label, val)) =>
      "<div style=\x27display:flex;align-items:center;margin-bottom:8px;\x27>" ++
      "<span style=\x27width:120px; font-size: 15px;\x27>" ++ label ++ "</span>" ++
      "<div style=\x27flex:1;background:#eee;border-radius:5px;overflow:hidden;\x27>" ++
      "<div style=\x27width:" ++ toString val ++ "%;height:14px;background:" ++
      colors.getD (j % colors.length) "" ++ ";\x27></div></div>" ++
      "<span style=\x27margin-left:10px; font-size: 15px;\x27>" ++ toString val ++
      "%</span></div>")) ++
    "<br>"))

/-- The `industry_map` dict literal of `build_dynamic_summary`. -/
def industry_map : List (String × String) :=
  [("保險", "競爭激烈的保險領域"), ("不動產", "充滿活力的不動產市場"),
   ("金融", "高風險的金融世界"), ("科技", "快速發展的科技產業"),
   ("製造業", "基礎穩固的製造業"), ("教育", "富有影響力的教育領域"),
   ("醫療保健", "至關重要的醫療保健產業")]

/-- `industry_map.get(industry, f"於 {industry} 領域")`. -/
def industry_narrative_of (industry : String) : String :=
  (industry_map.lookup industry).getD ("於 " ++ industry ++ " 領域")

/-- The `challenge_narrative_map` dict literal of `build_dynamic_summary`. -/
def challenge_narrative_map : List (String × String) :=
  [("尋求新資金", "尋求新資本以驅動下一階段的成長"),
   ("擴張策略不明", "規劃一條清晰且具防禦性的擴張路徑"),
   ("投資信心不足", "為投資者建立一個令人信服且有證據支持的案例"),
   ("品牌定位薄弱", "強化品牌敘事和市場定位的策略要務")]

/-- `challenge_narrative_map.get(challenge, f"解決 {challenge} 的主要挑戰")`. -/
def challenge_narrative_of (challenge : String) : String :=
  (challenge_narrative_map.lookup challenge).getD ("解決 " ++ challenge ++ " 的主要挑戰")

/-- The `opening_templates` list of `build_dynamic_summary`: three
alternative opening sentences interpolating country, industry clause,
experience and age. -/
def opening_templates (age : Int) (experience industry country : String) : List String :=
  let industry_narrative := industry_narrative_of industry
  ["對於一位在" ++ country ++ industry_narrative ++ "深耕約" ++ experience ++
     "年的專業人士而言，到達策略十字路口不僅是常態，更是雄心的體現。",
   "一位擁有" ++ experience ++ "年" ++ country ++ industry_narrative ++
     "經驗的專業人士，其職業生涯是適應能力和專業知識的明證，並自然地引向關鍵的轉折與反思時刻。",
   "在" ++ toString age ++ "歲的年紀，於" ++ country ++ "的" ++ industry_narrative ++
     "導航" ++ experience ++ "年，培養了獨特的視角，尤其是在面對職業成長的下一階段時。"]

/-- `random.choice(opening_templates)`: the draw selects one of the three
templates by its value modulo 3. -/
def chosen_opening_of (age : Int) (experience industry country : String) (r : Nat) : String :=
  (opening_templates age experience industry country).getD (r % 3) ""

/-- The body of `build_dynamic_summary` after the opening sentence has been
chosen: destructures the three value triples of the metric categories
(`none` models the `ValueError`/`IndexError` a shape mismatch would raise)
and emits the fixed heading plus four templated paragraphs. -/
def summary_with_opening (country : String) (metrics : List Metric)
    (challenge chosen_opening : String) : Option String :=
  let challenge_narrative := challenge_narrative_of challenge
  match metrics with
  | m0 :: m1 :: m2 :: _ =>
    match m0.values, m1.values, m2.values with
    | [brand, fit, stick], [conf, scale, trust], [partn, premium, leader] =>
      some (
        "<br><div style=\x27font-size:24px;font-weight:bold;\x27>🧠 策略摘要</div><br>" ++
        "<p style=\x27line-height:1.7; text-align:justify; margin-bottom: 1em;\x27>" ++
        chosen_opening ++ " 這份報告反映了一個關鍵時刻，其焦點轉向" ++ challenge_narrative ++
        "。數據顯示，擁有此背景的專業人士具備" ++ toString brand ++
        "%的強大品牌認知，意味著已建立一定的市場影響力。 " ++
        "然而，分析也指出了一个機會：需要提升價值主張的清晰度（客戶契合度為" ++ toString fit ++
        "%），並確保其專業聲譽具有持久的影響力（聲譽穩固性為" ++ toString stick ++
        "%）。目標是從單純的被認知，過渡到能產生共鳴的影響力。</p>" ++
        "<p style=\x27line-height:1.7; text-align:justify; margin-bottom: 1em;\x27>在" ++
        country ++ "的投資環境中，一個引人入勝的故事至關重要。" ++ toString conf ++
        "%的敘事信心表明，該人士的核心專業敘事元素是強而有力的。關鍵似乎在於解決規模化模型的問題，目前為" ++
        toString scale ++ "%。 " ++
        "這表明，優化「如何做」——即闡明一個清晰、可複製的成長模型——可能會顯著提升投資者吸引力。令人鼓舞的是，" ++
        toString trust ++
        "%的信任憑證得分顯示，過往的記錄是堅實的資產，為建構未來引人注目的敘事提供了信譽基礎。</p>" ++
        "<p style=\x27line-height:1.7; text-align:justify; margin-bottom: 1em;\x27>策略的最終評判標準是執行力。" ++
        toString partn ++
        "%的合作準備得分，標誌著強大的協作能力——這是吸引特定類型高水準合作夥伴或投資者時的關鍵要素。 " ++
        "此外，" ++ toString premium ++ "%的高階通路使用率揭示了提升品牌定位的未開發潛力。再加上" ++
        toString leader ++
        "%的穩固領導形象，訊息非常明確：具備這樣背景的專業人士已被視為可信。下一步是策略性地佔據能反映其全部價值的高影響力空間。</p>" ++
        "<p style=\x27line-height:1.7; text-align:justify; margin-bottom: 1em;\x27>將這樣的資料與新加坡、馬來西亞和台灣的同行進行基準比較，不僅是衡量現狀，更是為了揭示策略優勢。 " ++
        "數據表明，驅動這一策略焦點的專業直覺通常是正確的。對於處於此階段的專業人士來說，前進的道路通常在於資訊、模型和市場的精準對齊。本分析可作為一個框架，為這類專業人士將當前氣勢轉化為決定性突破提供所需的清晰度。</p>")
    | _, _, _ => none
  | _ => none

/-- `build_dynamic_summary`: resolves the narrative templates, chooses the
opening sentence from the supplied draw, and emits the summary fragment.
`context` and `target_profile` are accepted but never used, as in the
source. -/
def build_dynamic_summary (age : Int) (experience industry country : String)
    (metrics : List Metric) (challenge context target_profile : String) (r : Nat) :
    Option String :=
  summary_with_opening country metrics challenge
    (chosen_opening_of age experience industry country r)

/-- `data.get("fullName", "N/A")`. -/
def full_name_of (d : Intake) : String := d.fullName.getD "N/A"

/-- `data.get("chineseName", "N/A")`. -/
def chinese_name_of (d : Intake) : String := d.chineseName.getD "N/A"

/-- `data.get("dob", "N/A")`. -/
def dob_str_of (d : Intake) : String := d.dob.getD "N/A"

/-- `data.get("contactNumber", "N/A")`. -/
def contact_number_of (d : Intake) : String := d.contactNumber.getD "N/A"

/-- `data.get("company", "N/A")`. -/
def company_of (d : Intake) : String := d.company.getD "N/A"

/-- `data.get("role", "N/A")`. -/
def role_of (d : Intake) : String := d.role.getD "N/A"

/-- `data.get("country", "N/A")`. -/
def country_of (d : Intake) : String := d.country.getD "N/A"

/-- `data.get("experience", "N/A")`. -/
def experience_of (d : Intake) : String := d.experience.getD "N/A"

/-- `data.get("industry", "N/A")`. -/
def industry_of (d : Intake) : String := d.industry.getD "N/A"

/-- `data.get("challenge", "N/A")`. -/
def challenge_of (d : Intake) : String := d.challenge.getD "N/A"

/-- `data.get("context", "N/A")`. -/
def context_of (d : Intake) : String := d.context.getD "N/A"

/-- `data.get("targetProfile", "N/A")`. -/
def target_profile_of (d : Intake) : String := d.targetProfile.getD "N/A"

/-- `data.get("advisor", "N/A")`. -/
def advisor_of (d : Intake) : String := d.advisor.getD "N/A"

/-- `data.get("email", "N/A")`. -/
def email_of (d : Intake) : String := d.email.getD "N/A"

/-- The fixed report title fragment. -/
def title_html : String :=
  "<h4 style=\x27text-align:center;font-size:24px;\x27>🎯 AI 策略洞察</h4>"

/-- The top banner of the email variant, `<h1>新的投資者洞察提交</h1>`. -/
def banner_html : String := "<h1>新的投資者洞察提交</h1>"

/-- The fixed footer fragment (AI-insight sources, compliance notice, and
follow-up promise). -/
def footer_html : String :=
  "<div style=\x27background-color:#f9f9f9;color:#333;padding:20px;border-left:6px solid #8C52FF; border-radius:8px;margin-top:30px;\x27>" ++
  "<strong>📊 AI 洞察來源:</strong><ul style=\x27margin-top:10px;margin-bottom:10px;padding-left:20px;line-height:1.7;\x27>" ++
  "<li>來自新加坡、馬來西亞和台灣的匿名專業人士資料</li>" ++
  "<li>來自 OpenAI 和全球市場的投資者情緒模型及趨勢基準</li></ul>" ++
  "<p style=\x27margin-top:10px;line-height:1.7;\x27>所有資料均符合個人資料保護法(PDPA)且不會被儲存。我們的 AI 系統在偵測具統計意義的模式時，不會引用任何個人記錄。</p>" ++
  "<p style=\x27margin-top:10px;line-height:1.7;\x27><strong>附註:</strong> 這份初步洞察僅僅是個開始。一份更個人化、資料更具體的報告——反映您提供的完整資訊——將在 <strong>24 至 48 小時</strong> 內準備好並傳送到收件人的信箱。" ++
  "這將使我們的 AI 系統能夠將您的資料與細微的區域和產業特定基準進行交叉引用，確保提供針對確切挑戰的更精準建議。" ++
  "如果希望盡快進行對話，我們很樂意在您方便的時間安排一次 <strong>15 分鐘的通話</strong>。 🎯</p></div>"

/-- `details_html`: the submission-summary block listing every raw intake
field with its label, email-variant only. -/
def details_html_of (data : Intake) : String :=
  "<br><div style=\x27font-size:14px;color:#333;line-height:1.6;\x27>" ++
  "<h3 style=\x27font-size:16px;\x27>📝 提交摘要</h3>" ++
  "<strong>英文姓名:</strong> " ++ full_name_of data ++ "<br>" ++
  "<strong>中文姓名:</strong> " ++ chinese_name_of data ++ "<br>" ++
  "<strong>出生日期:</strong> " ++ dob_str_of data ++ "<br>" ++
  "<strong>聯絡電話:</strong> " ++ contact_number_of data ++ "<br>" ++
  "<strong>國家/地區:</strong> " ++ country_of data ++ "<br>" ++
  "<strong>公司名稱:</strong> " ++ company_of data ++ "<br>" ++
  "<strong>目前職位:</strong> " ++ role_of data ++ "<br>" ++
  "<strong>經驗年資:</strong> " ++ experience_of data ++ "<br>" ++
  "<strong>所屬產業:</strong> " ++ industry_of data ++ "<br>" ++
  "<strong>主要挑戰:</strong> " ++ challenge_of data ++ "<br>" ++
  "<strong>背景簡介:</strong> " ++ context_of data ++ "<br>" ++
  "<strong>目標畫像:</strong> " ++ target_profile_of data ++ "<br>" ++
  "<strong>推薦人:</strong> " ++ advisor_of data ++ "<br>" ++
  "<strong>電子信箱:</strong> " ++ email_of data ++ "</div><hr>"

/-- The tips prompt built from country, industry and experience. -/
def prompt_of (data : Intake) : String :=
  "為一位在" ++ country_of data ++ industry_of data ++ "領域擁有" ++ experience_of data ++
  "年經驗的專業人士，生成10條吸引投資者的實用建議，並附上表情符號。" ++
  "語氣應犀利、具有策略性且專業。請用繁體中文回答。" ++
  "重點：請使用客觀的第三人稱視角撰寫，例如使用「該類專業人士」或「他們」，絕對不要使用「您」或「您的」。"

/-- The fixed fallback warning emitted when tip generation fails. -/
def fallback_tips : String := "<p style=\x27color:red;\x27>⚠️ 暫時無法生成創新建議。</p>"

/-- The heading prepended to a successful tips block. -/
def tips_header : String :=
  "<br><div style=\x27font-size:24px;font-weight:bold;\x27>💡 創新建議</div><br>"

/-- The `tips_block` construction: a truthy `tips_text` (a non-`None`,
non-empty string, per Python truthiness) is split into lines
(`splitlines` modelled by splitting on the newline character), the blank
lines dropped, and each remaining line wrapped in a paragraph after the
heading; otherwise the fixed fallback warning. -/
def tips_block_of (tips_text : Option String) : String :=
  match tips_text with
  | some t =>
    if t != "" then
      tips_header ++
      String.join (((t.splitOn "\n").filter (fun line => line.trim != "")).map
        (fun line =>
          "<p style=\x27font-size:16px; line-height:1.6; margin-bottom: 1em;\x27>" ++
          line.trim ++ "</p>"))
    else fallback_tips
  | none => fallback_tips

/-- The tips text of a request: the external call on the built prompt. -/
def tips_text_of (data : Intake) (env : Env) : Option String :=
  get_openai_response env.clientOk env.api (prompt_of data)

/-- The chart fragment of a request. -/
def chart_html_of (env : Env) : String :=
  generate_chart_html (generate_chart_metrics env.r)

/-- The age of a request that reaches assembly:
`compute_age(data.get("dob", "N/A"))`. The `Except.error` branch is
unreachable on the caught view (`age_of_never_raises`). -/
def age_of (data : Intake) (env : Env) : Int :=
  match compute_age (fun s => ParseOutcome.ofCaught (env.parse s)) env.today
      (dob_str_of data) with
  | Except.ok a => a
  | Except.error _ => 0

/-- The narrative fragment of a request (the opening-sentence draw is
stream index 9). -/
def summary_opt (data : Intake) (env : Env) : Option String :=
  build_dynamic_summary (age_of data env) (experience_of data) (industry_of data)
    (country_of data) (generate_chart_metrics env.r) (challenge_of data)
    (context_of data) (target_profile_of data) (env.r 9)

/-- The fragments of the display (API response) document, in concatenation
order: title, chart, narrative, advice, footer. -/
def display_fragments (data : Intake) (env : Env) : Option (List String) :=
  (summary_opt data env).map (fun summary_html =>
    [title_html, chart_html_of env, summary_html,
     tips_block_of (tips_text_of data env), footer_html])

/-- The fragments of the full (email) document, in concatenation order:
banner, submission summary, title, chart, narrative, advice, footer. -/
def email_fragments (data : Intake) (env : Env) : Option (List String) :=
  (summary_opt data env).map (fun summary_html =>
    [banner_html, details_html_of data, title_html, chart_html_of env, summary_html,
     tips_block_of (tips_text_of data env), footer_html])

/-- The display-variant HTML, exactly as concatenated at the return site. -/
def display_html_of (data : Intake) (env : Env) : Option String :=
  (summary_opt data env).map (fun summary_html =>
    title_html ++ chart_html_of env ++ summary_html ++
    tips_block_of (tips_text_of data env) ++ footer_html)

/-- The full-variant HTML, exactly as concatenated into `email_html`. -/
def email_html_of (data : Intake) (env : Env) : Option String :=
  (summary_opt data env).map (fun summary_html =>
    banner_html ++ details_html_of data ++ title_html ++ chart_html_of env ++
    summary_html ++ tips_block_of (tips_text_of data env) ++ footer_html)

/-- The `/investor_analyze` route on a successfully parsed JSON body:
extracts the fields, computes age and metrics, assembles both HTML
variants, dispatches the email best-effort (its log is discarded), and
returns 200 with the display variant; the top-level `except` path (a 500
with a generic message) is taken only if summary assembly fails. -/
def investor_analyze (data : Intake) (env : Env) : HttpResponse :=
  (summary_opt data env).elim
    ⟨500, "error", "發生內部伺服器錯誤。"⟩
    (fun summary_html =>
      let tips_block := tips_block_of (tips_text_of data env)
      let email_html := banner_html ++ details_html_of data ++ title_html ++
        chart_html_of env ++ summary_html ++ tips_block ++ footer_html
      let _log := send_email env.smtpPassword env.smtp email_html
        ("新的投資者洞察: " ++ full_name_of data)
      ⟨200, "html_result", title_html ++ chart_html_of env ++ summary_html ++
        tips_block ++ footer_html⟩)

/-- Stated from the claim: the fixed 3-color palette the bar fill cycles
through. -/
def chart_palette : List String := ["#8C52FF", "#5E9CA0", "#F2A900"]

/-- Stated from the claim: the category title line preceding the bars. -/
def category_title_fragment (t : String) : String :=
  "<strong style=\x27font-size:18px;color:#333;\x27>" ++ t ++ "</strong><br>"

/-- Stated from the claim: one horizontal bar row whose width style is the
value as a percentage and whose fill is the given palette color. -/
def bar_fragment (label : String) (val : Nat) (color : String) : String :=
  "<div style=\x27display:flex;align-items:center;margin-bottom:8px;\x27>" ++
  "<span style=\x27width:120px; font-size: 15px;\x27>" ++ label ++ "</span>" ++
  "<div style=\x27flex:1;background:#eee;border-radius:5px;overflow:hidden;\x27>" ++
  "<div style=\x27width:" ++ toString val ++ "%;height:14px;background:" ++
  color ++ ";\x27></div></div>" ++
  "<span style=\x27margin-left:10px; font-size: 15px;\x27>" ++ toString val ++
  "%</span></div>"

/-- A concrete date parser for witnesses, mirroring the documented
behaviour of `dateutil` on four inputs: it accepts two fixed date
strings, raises the uncaught `OverflowError` on a date whose year
exceeds the largest C integer, and raises a caught `ValueError` on
everything else. -/
def parse0 : String → ParseOutcome := fun s =>
  if s = "1990-05-10" then ParseOutcome.parsed ⟨1990, 5, 10⟩
  else if s = "2100-01-01" then ParseOutcome.parsed ⟨2100, 1, 1⟩
  else if s = "99999999999999999999-01-01" then ParseOutcome.overflowed "OverflowError"
  else ParseOutcome.failed "ValueError"

/-- The caught view of a concrete date parser, for the assembly-level
witness environment. -/
def parseOpt0 : String → Option PDate := fun s =>
  if s = "1990-05-10" then some ⟨1990, 5, 10⟩ else none

/-- A concrete current date for witnesses. -/
def today0 : PDate := ⟨2026, 10, 12⟩

/-- A concrete intake submission for witnesses. -/
def data0 : Intake :=
  { fullName := some "Test", chineseName := none, dob := some "1990-05-10",
    contactNumber := none, company := none, role := none, country := some "台灣",
    experience := some "5", industry := some "科技", challenge := some "尋求新資金",
    context := none, targetProfile := none, advisor := none, email := none }

/-- A concrete environment for witnesses in which every collaborator
succeeds. -/
def env0 : Env :=
  { today := today0, parse := parseOpt0, r := fun _ => 0, clientOk := true,
    api := fun _ => ApiResult.ok "tip one\ntip two", smtpPassword := some "pw",
    smtp := SmtpOutcome.delivered }

/-- `env0` with the OpenAI client not configured. -/
def envFail : Env := { env0 with clientOk := false }

/-- A concrete metrics value for witnesses. -/
def metrics0 : List Metric := generate_chart_metrics (fun _ => 0)

/-- `randint` always lands in its inclusive range. -/
theorem randint_mem (lo hi draw : Nat) (h : lo ≤ hi) :
    lo ≤ randint lo hi draw ∧ randint lo hi draw ≤ hi := by
  unfold randint
  have hm : draw % (hi - lo + 1) < hi - lo + 1 := Nat.mod_lt _ (by omega)
  omega

/-- The metric generator always yields three well-shaped categories, so the
narrative destructuring succeeds on every request. -/
theorem summary_opt_isSome (data : Intake) (env : Env) :
    ∃ s, summary_opt data env = some s := ⟨_, rfl⟩

/-- The route always takes the 200 path, returning the display-variant
concatenation. -/
theorem investor_analyze_response (data : Intake) (env : Env) :
    investor_analyze data env =
      ⟨200, "html_result",
        title_html ++ chart_html_of env ++ (summary_opt data env).getD "" ++
        tips_block_of (tips_text_of data env) ++ footer_html⟩ := by
  obtain ⟨s, hs⟩ := summary_opt_isSome data env
  simp only [investor_analyze, hs]
  rfl

/-- The `html_result` value of the route is never the empty string. -/
theorem response_value_nonempty (data : Intake) (env : Env) :
    (investor_analyze data env).value ≠ "" := by
  rw [investor_analyze_response]
  show title_html ++ chart_html_of env ++ (summary_opt data env).getD "" ++
      tips_block_of (tips_text_of data env) ++ footer_html ≠ ""
  intro e
  have hl := congrArg String.length e
  simp only [String.length_append, String.length_empty] at hl
  have ht : 0 < title_html.length := by decide
  omega

/-- On the caught view of a parser, `compute_age` never reaches its
`Except.error` branch: the age of a request that reaches assembly is
well defined. -/
theorem age_of_never_raises (data : Intake) (env : Env) :
    compute_age (fun s => ParseOutcome.ofCaught (env.parse s)) env.today
        (dob_str_of data) = Except.ok (age_of data env) := by
  unfold age_of
  cases h : env.parse (dob_str_of data) <;>
    simp [compute_age, ParseOutcome.ofCaught, h]

/-- C2: the claim fails twice on the code. The parser accepts the future
date "2100-01-01" and the computed age is the negative -74; and on a
date string whose year exceeds the largest C integer the parse failure
is the uncaught `OverflowError`, so `compute_age` does not return 0
there but propagates the exception. -/
theorem C2_counterexample :
    (compute_age parse0 today0 "2100-01-01" = Except.ok (-74) ∧ ¬ (0:Int) ≤ -74) ∧
    compute_age parse0 today0 "99999999999999999999-01-01" ≠ Except.ok 0 := by
  refine ⟨⟨rfl, by decide⟩, ?_⟩
  intro h
  rw [show compute_age parse0 today0 "99999999999999999999-01-01" =
      Except.error "OverflowError" from rfl] at h
  exact Except.noConfusion h

/-- C2 (amended): for every date-of-birth string that the parser accepts
and whose date is not after the current date, `compute_age` returns a
non-negative integer; for every string on which parsing fails with one
of the caught exception types (`ValueError`/`TypeError`) it returns
exactly 0 (an `OverflowError` instead propagates, see `C5_counterexample`). -/
theorem C2_amended_nonneg (parse : String → ParseOutcome) (today : PDate) (dob : String) :
    (∀ b, parse dob = ParseOutcome.parsed b →
      (b.year < today.year ∨
        (b.year = today.year ∧
          (b.month < today.month ∨ (b.month = today.month ∧ b.day ≤ today.day)))) →
      ∀ a, compute_age parse today dob = Except.ok a → 0 ≤ a) ∧
    (∀ m, parse dob = ParseOutcome.failed m →
      compute_age parse today dob = Except.ok 0) := by
  constructor
  · intro b hb hle a ha
    simp only [compute_age, hb] at ha
    injection ha with ha
    subst ha
    rcases hle with hy | ⟨hy, hmd⟩
    · split <;> omega
    · have hlt : ¬ pyTupleLt (today.month, today.day) (b.month, b.day) := by
        simp only [pyTupleLt]
        omega
      rw [if_neg hlt]
      omega
  · intro m hm
    simp [compute_age, hm]

/-- C2 (amended) at concrete inputs: a past birth date yields the
non-negative age 36, and a string failing with the caught `ValueError`
yields 0. -/
theorem C2_amended_witness :
    0 ≤ (36 : Int) ∧ compute_age parse0 today0 "nope" = Except.ok 0 :=
  ⟨(C2_amended_nonneg parse0 today0 "1990-05-10").1 ⟨1990, 5, 10⟩ rfl
      (Or.inl (by decide)) 36 rfl,
   (C2_amended_nonneg parse0 today0 "nope").2 "ValueError" rfl⟩

/-- C5: the claim that `compute_age` never raises an exception to its
caller fails: the `except` clause lists only `ValueError` and
`TypeError`, so on a date string whose year exceeds the largest C
integer the documented `OverflowError` of the parser propagates instead
of yielding 0. -/
theorem C5_counterexample :
    compute_age parse0 today0 "99999999999999999999-01-01" =
      Except.error "OverflowError" ∧
    compute_age parse0 today0 "99999999999999999999-01-01" ≠ Except.ok 0 := by
  refine ⟨rfl, ?_⟩
  intro h
  rw [show compute_age parse0 today0 "99999999999999999999-01-01" =
      Except.error "OverflowError" from rfl] at h
  exact Except.noConfusion h

/-- C5 (amended): on every accepted date of birth, `compute_age` returns
`today.year - birth.year`, decremented by exactly 1 when the current
(month, day) pair is lexicographically strictly below the birth
(month, day) pair; on a parse failure raising one of the caught
exception types (`ValueError`/`TypeError`) it returns exactly 0; a
parse failure raising `OverflowError` is not caught and propagates to
the caller. -/
theorem C5_amended_formula (parse : String → ParseOutcome) (today : PDate) (dob : String) :
    (∀ b, parse dob = ParseOutcome.parsed b →
      compute_age parse today dob =
        Except.ok (if today.month < b.month ∨ (today.month = b.month ∧ today.day < b.day)
          then today.year - b.year - 1 else today.year - b.year)) ∧
    (∀ m, parse dob = ParseOutcome.failed m →
      compute_age parse today dob = Except.ok 0) ∧
    (∀ m, parse dob = ParseOutcome.overflowed m →
      compute_age parse today dob = Except.error m) := by
  refine ⟨?_, ?_, ?_⟩
  · intro b hb
    simp only [compute_age, hb]
    by_cases h : today.month < b.month ∨ (today.month = b.month ∧ today.day < b.day) <;>
      simp [pyTupleLt, h]
  · intro m hm
    simp [compute_age, hm]
  · intro m hm
    simp [compute_age, hm]

/-- C5 (amended) at concrete inputs: all three parse outcomes — an
accepted date with the birthday already past (age 36), a caught failure
(0), and an uncaught overflow (propagated). -/
theorem C5_witness :
    compute_age parse0 today0 "1990-05-10" = Except.ok 36 ∧
    compute_age parse0 today0 "zzz" = Except.ok 0 ∧
    compute_age parse0 today0 "99999999999999999999-01-01" =
      Except.error "OverflowError" := by
  have h := C5_amended_formula parse0 today0 "1990-05-10"
  have h2 := C5_amended_formula parse0 today0 "zzz"
  have h3 := C5_amended_formula parse0 today0 "99999999999999999999-01-01"
  refine ⟨?_, h2.2.1 "ValueError" rfl, h3.2.2 "OverflowError" rfl⟩
  rw [h.1 ⟨1990, 5, 10⟩ rfl]
  rfl

/-- C6: every call of the metric generator yields exactly 3 categories,
each with exactly 3 labels and exactly 3 values, and each value lies in
the inclusive bound range configured for its category and position:
[70,90],[65,85],[70,90]; [70,85],[60,80],[75,90]; [65,85],[65,85],[75,90]. -/
theorem C6_metric_bounds (r : Nat → Nat) :
    ∃ m0 m1 m2, generate_chart_metrics r = [m0, m1, m2] ∧
      m0.labels.length = 3 ∧ m1.labels.length = 3 ∧ m2.labels.length = 3 ∧
      (∃ a b c, m0.values = [a, b, c] ∧
        70 ≤ a ∧ a ≤ 90 ∧ 65 ≤ b ∧ b ≤ 85 ∧ 70 ≤ c ∧ c ≤ 90) ∧
      (∃ a b c, m1.values = [a, b, c] ∧
        70 ≤ a ∧ a ≤ 85 ∧ 60 ≤ b ∧ b ≤ 80 ∧ 75 ≤ c ∧ c ≤ 90) ∧
      (∃ a b c, m2.values = [a, b, c] ∧
        65 ≤ a ∧ a ≤ 85 ∧ 65 ≤ b ∧ b ≤ 85 ∧ 75 ≤ c ∧ c ≤ 90) := by
  refine ⟨_, _, _, rfl, rfl, rfl, rfl,
    ⟨_, _, _, rfl, ?_, ?_, ?_, ?_, ?_, ?_⟩,
    ⟨_, _, _, rfl, ?_, ?_, ?_, ?_, ?_, ?_⟩,
    ⟨_, _, _, rfl, ?_, ?_, ?_, ?_, ?_, ?_⟩⟩ <;>
  first
  | exact (randint_mem 70 90 _ (by omega)).1
  | exact (randint_mem 70 90 _ (by omega)).2
  | exact (randint_mem 65 85 _ (by omega)).1
  | exact (randint_mem 65 85 _ (by omega)).2
  | exact (randint_mem 70 85 _ (by omega)).1
  | exact (randint_mem 70 85 _ (by omega)).2
  | exact (randint_mem 60 80 _ (by omega)).1
  | exact (randint_mem 60 80 _ (by omega)).2
  | exact (randint_mem 75 90 _ (by omega)).1
  | exact (randint_mem 75 90 _ (by omega)).2

/-- C3: whenever the external tips call fails — client not configured,
provider exception, or an empty (stripped) result — the advice fragment
is exactly the fixed fallback warning in both HTML variants, and the
route still answers 200 with a non-empty `html_result`. -/
theorem C3_fallback_on_failure (data : Intake) (env : Env)
    (h : env.clientOk = false ∨
      (∃ m, env.api (prompt_of data) = ApiResult.error m) ∨
      (∃ c, env.api (prompt_of data) = ApiResult.ok c ∧ c.trim = "")) :
    tips_block_of (tips_text_of data env) = fallback_tips ∧
    (investor_analyze data env).status = 200 ∧
    (investor_analyze data env).key = "html_result" ∧
    (investor_analyze data env).value ≠ "" ∧
    display_fragments data env =
      (summary_opt data env).map (fun s =>
        [title_html, chart_html_of env, s, fallback_tips, footer_html]) ∧
    email_fragments data env =
      (summary_opt data env).map (fun s =>
        [banner_html, details_html_of data, title_html, chart_html_of env, s,
         fallback_tips, footer_html]) := by
  have htips : tips_block_of (tips_text_of data env) = fallback_tips := by
    unfold tips_text_of get_openai_response
    rcases h with h | ⟨m, hm⟩ | ⟨c, hc, hce⟩
    · simp [h, tips_block_of]
    · cases hco : env.clientOk <;> simp [hm, tips_block_of]
    · cases hco : env.clientOk <;> simp [hc, hce, tips_block_of]
  refine ⟨htips, ?_, ?_, response_value_nonempty data env, ?_, ?_⟩
  · rw [investor_analyze_response]
  · rw [investor_analyze_response]
  · simp only [display_fragments, htips]
  · simp only [email_fragments, htips]

/-- C3 at a concrete input: with the client not configured the tips block
is the fallback warning and the route answers 200. -/
theorem C3_witness :
    tips_block_of (tips_text_of data0 envFail) = fallback_tips ∧
    (investor_analyze data0 envFail).status = 200 :=
  ⟨(C3_fallback_on_failure data0 envFail (Or.inl rfl)).1,
   (C3_fallback_on_failure data0 envFail (Or.inl rfl)).2.1⟩

/-- C4: a raising SMTP session is caught inside `send_email` and turned
into a log value, and the HTTP response is identical — same 200 status,
same `html_result` — whatever the mail credentials and transport outcome
are, in particular identical to the response when delivery succeeds. -/
theorem C4_email_failure_isolated (data : Intake) (env : Env) (pw : Option String)
    (o : SmtpOutcome) (body subj m : String) :
    (send_email_attempt o = Except.error m →
      send_email (some "pw") o body subj = EmailLog.failed m) ∧
    investor_analyze data { env with smtpPassword := pw, smtp := o } =
      investor_analyze data { env with smtpPassword := some "pw",
                                       smtp := SmtpOutcome.delivered } ∧
    (investor_analyze data env).status = 200 ∧
    (investor_analyze data env).value ≠ "" := by
  refine ⟨?_, ?_, ?_, response_value_nonempty data env⟩
  · intro hatt
    simp [send_email, hatt]
  · rfl
  · rw [investor_analyze_response]

/-- C4 at a concrete input: a send failure is swallowed into a log entry. -/
theorem C4_witness :
    send_email (some "pw") (SmtpOutcome.sendFailed "boom") "b" "s" = EmailLog.failed "boom" :=
  (C4_email_failure_isolated data0 env0 none (SmtpOutcome.sendFailed "boom")
    "b" "s" "boom").1 rfl

/-- C1: the claim that the full (email) variant has exactly one fragment
more than the display variant fails: at a concrete request the email
variant has 7 fragments and the display variant 5 — both the
new-submission banner and the submission-summary block are extra. -/
theorem C1_counterexample :
    ¬ (email_fragments data0 env0).map List.length =
        (display_fragments data0 env0).map (fun frags => frags.length + 1) := by decide

/-- C1 (amended): the full (email) variant consists of the display
variant fragments in the same order, preceded by exactly two extra
fragments — the new-submission banner and the submission-summary block;
joining the fragments yields the respective HTML variants, and the route
returns 200 with the display variant. -/
theorem C1_amended_two_extra (data : Intake) (env : Env) :
    email_fragments data env =
      (display_fragments data env).map
        (fun frags => banner_html :: details_html_of data :: frags) ∧
    (email_fragments data env).map String.join = email_html_of data env ∧
    (display_fragments data env).map String.join = display_html_of data env ∧
    email_html_of data env =
      (display_html_of data env).map
        (fun d => banner_html ++ details_html_of data ++ d) ∧
    investor_analyze data env =
      ⟨200, "html_result", (display_html_of data env).getD ""⟩ := by
  obtain ⟨s, hs⟩ := summary_opt_isSome data env
  refine ⟨?_, ?_, ?_, ?_, ?_⟩
  · simp only [email_fragments, display_fragments, hs, Option.map_some']
  · simp only [email_fragments, email_html_of, hs, Option.map_some']
    rfl
  · simp only [display_fragments, display_html_of, hs, Option.map_some']
    rfl
  · simp only [email_html_of, display_html_of, hs, Option.map_some', String.append_assoc]
  · simp only [investor_analyze, display_html_of, hs, Option.map_some', Option.getD_some,
      Option.elim_some]

/-- C7: the narrative composer is deterministic once the random
opening-sentence selection (the draw modulo 3) is fixed: two calls with
identical inputs and the same forced selection produce identical output. -/
theorem C7_deterministic_given_opening (age : Int) (experience industry country : String)
    (metrics : List Metric) (challenge context target_profile : String) (r1 r2 : Nat)
    (h : r1 % 3 = r2 % 3) :
    build_dynamic_summary age experience industry country metrics challenge context
        target_profile r1 =
      build_dynamic_summary age experience industry country metrics challenge context
        target_profile r2 := by
  unfold build_dynamic_summary chosen_opening_of
  rw [h]

/-- C7 at concrete inputs: draws 1 and 4 force the same opening sentence
and give identical summaries. -/
theorem C7_witness :
    build_dynamic_summary 36 "5" "科技" "台灣" metrics0 "尋求新資金" "ctx" "tp" 1 =
      build_dynamic_summary 36 "5" "科技" "台灣" metrics0 "尋求新資金" "ctx" "tp" 4 :=
  C7_deterministic_given_opening 36 "5" "科技" "台灣" metrics0 "尋求新資金" "ctx" "tp"
    1 4 (by decide)

/-- On an association list with pairwise-distinct keys, lookup of a key
that appears returns its mapped value. -/
theorem lookup_eq_some_of_mem_nodup :
    ∀ (l : List (String × String)), (l.map Prod.fst).Nodup →
      ∀ k v, (k, v) ∈ l → l.lookup k = some v := by
  intro l
  induction l with
  | nil =>
    intro _ k v h
    simp at h
  | cons p t ih =>
    intro hnd k v h
    obtain ⟨a, b⟩ := p
    simp only [List.map_cons, List.nodup_cons] at hnd
    rcases List.mem_cons.mp h with heq | hmem
    · injection heq with h1 h2
      subst h1
      subst h2
      exact List.lookup_cons_self
    · have hne : k ≠ a := by
        rintro rfl
        exact hnd.1 (List.mem_map_of_mem Prod.fst hmem)
      have hba : (k == a) = false := beq_eq_false_iff_ne.mpr hne
      rw [List.lookup_cons]
      simp only [hba]
      exact ih hnd.2 k v hmem

/-- Lookup of a key that appears in no pair of an association list
returns `none`. -/
theorem lookup_eq_none_of_not_mem_keys (l : List (String × String)) (k : String)
    (hk : k ∉ l.map Prod.fst) : l.lookup k = none := by
  rw [List.lookup_eq_none_iff]
  intro p hp
  simp only [bne_iff_ne, ne_eq]
  rintro rfl
  exact hk (List.mem_map_of_mem Prod.fst hp)

/-- C8: the narrative composer resolves a recognized industry or
challenge key to its mapped descriptive clause, and any unrecognized
value to the generic fallback phrasing interpolating the raw value. -/
theorem C8_template_resolution (industry challenge : String) :
    (∀ v, (industry, v) ∈ industry_map → industry_narrative_of industry = v) ∧
    (industry ∉ industry_map.map Prod.fst →
      industry_narrative_of industry = "於 " ++ industry ++ " 領域") ∧
    (∀ v, (challenge, v) ∈ challenge_narrative_map →
      challenge_narrative_of challenge = v) ∧
    (challenge ∉ challenge_narrative_map.map Prod.fst →
      challenge_narrative_of challenge = "解決 " ++ challenge ++ " 的主要挑戰") := by
  refine ⟨?_, ?_, ?_, ?_⟩
  · intro v h
    unfold industry_narrative_of
    rw [lookup_eq_some_of_mem_nodup industry_map (by decide) industry v h]
    rfl
  · intro h
    unfold industry_narrative_of
    rw [lookup_eq_none_of_not_mem_keys industry_map industry h]
    rfl
  · intro v h
    unfold challenge_narrative_of
    rw [lookup_eq_some_of_mem_nodup challenge_narrative_map (by decide) challenge v h]
    rfl
  · intro h
    unfold challenge_narrative_of
    rw [lookup_eq_none_of_not_mem_keys challenge_narrative_map challenge h]
    rfl

/-- C8 at concrete inputs: a mapped industry key, an unmapped industry, a
mapped challenge key, an unmapped challenge. -/
theorem C8_witness :
    industry_narrative_of "保險" = "競爭激烈的保險領域" ∧
    industry_narrative_of "太空" = "於 " ++ "太空" ++ " 領域" ∧
    challenge_narrative_of "品牌定位薄弱" = "強化品牌敘事和市場定位的策略要務" ∧
    challenge_narrative_of "找人" = "解決 " ++ "找人" ++ " 的主要挑戰" :=
  ⟨(C8_template_resolution "保險" "x").1 _ (by decide),
   (C8_template_resolution "太空" "x").2.1 (by decide),
   (C8_template_resolution "x" "品牌定位薄弱").2.2.1 _ (by decide),
   (C8_template_resolution "x" "找人").2.2.2 (by decide)⟩

/-- C9: the chart renderer is the pure function that emits, per category,
the title line followed by one bar per zipped label/value pair in order,
the bar width style being the value as a percentage and the fill color
the palette entry at the position of the pair modulo 3. -/
theorem C9_chart_structure (metrics : List Metric) :
    generate_chart_html metrics =
      String.join (metrics.map (fun m =>
        category_title_fragment m.title ++
        String.join (((m.labels.zip m.values).enum).map (fun (j, (label, val)) =>
          bar_fragment label val (chart_palette.getD (j % 3) ""))) ++ "<br>")) := rfl

/-- C10: the narrative composer ignores its `context` and
`target_profile` parameters entirely: calls differing only there (with
the same draw) produce identical output. -/
theorem C10_context_independent (age : Int) (experience industry country : String)
    (metrics : List Metric) (challenge ctx1 ctx2 tp1 tp2 : String) (r : Nat) :
    build_dynamic_summary age experience industry country metrics challenge ctx1 tp1 r =
      build_dynamic_summary age experience industry country metrics challenge ctx2 tp2 r :=
  rfl
